import Mathlib

/-!
Shallow embedding of `src/server.js` of the metabase-mcp-server repository:
a small Express HTTP service with a health endpoint and three POST handlers
(`/natural_language_to_sql`, `/create_question`, `/get_question_results`),
an allow-list gate over database identifiers, and a `callMetabase` helper.

JavaScript values that flow through request bodies and upstream responses are
modelled by the inductive `JsValue`, with JS truthiness (`truthy`) and JS
`String(...)` conversion (`jsToString`).  Each handler is a pure function of
the process configuration, the parsed request body, and the outcome of the
(at most one) outbound call it may issue; it returns the HTTP response
together with the list of outbound calls actually issued.
-/

namespace MetabaseMcp

/-- JavaScript runtime values, as far as this server manipulates them. -/
inductive JsValue where
  | undefined
  | null
  | bool (b : Bool)
  | num (n : Int)
  | str (s : String)
  | arr (elems : List JsValue)
  | obj (fields : List (String × JsValue))
deriving Repr

/-- JS truthiness: `undefined`, `null`, `false`, `0` and `""` are falsy;
arrays and objects are always truthy. -/
def truthy : JsValue → Bool
  | .undefined => false
  | .null => false
  | .bool b => b
  | .num n => n != 0
  | .str s => !s.isEmpty
  | .arr _ => true
  | .obj _ => true

mutual

/-- JS `Array.prototype.join(sep)`: elements converted with `String(...)`,
except `null`/`undefined` which become the empty string. -/
def jsJoin : String → List JsValue → String
  | _, [] => ""
  | sep, x :: xs =>
    jsJoinElem x ++ (match xs with | [] => "" | _ :: _ => sep ++ jsJoin sep xs)

/-- Conversion of one array element inside `join`. -/
def jsJoinElem : JsValue → String
  | .undefined => ""
  | .null => ""
  | .bool b => cond b "true" "false"
  | .num n => toString n
  | .str s => s
  | .arr xs => jsJoin "," xs
  | .obj _ => "[object Object]"

end

/-- JS `String(v)` conversion. -/
def jsToString : JsValue → String
  | .undefined => "undefined"
  | .null => "null"
  | .bool b => cond b "true" "false"
  | .num n => toString n
  | .str s => s
  | .arr xs => jsJoin "," xs
  | .obj _ => "[object Object]"

/-- Leading-whitespace removal on a character list. -/
def trimLeftChars : List Char → List Char
  | [] => []
  | c :: cs => if c.isWhitespace then trimLeftChars cs else c :: cs

/-- JS `String.prototype.trim()`: strip whitespace from both ends. -/
def jsTrimStr (s : String) : String :=
  ⟨(trimLeftChars (trimLeftChars s.data).reverse).reverse⟩

/-- Property access `v.k`: `undefined` on non-objects and missing keys. -/
def getField : JsValue → String → JsValue
  | .obj fields, k =>
    match fields.find? (fun p => p.1 == k) with
    | some p => p.2
    | none => .undefined
  | _, _ => .undefined

/-- Optional chaining `v?.k`: short-circuits to `undefined` on nullish `v`. -/
def optChain (v : JsValue) (k : String) : JsValue :=
  match v with
  | .undefined => .undefined
  | .null => .undefined
  | _ => getField v k

/-- Optional index `v?.[i]`. -/
def optIndex (v : JsValue) (i : Nat) : JsValue :=
  match v with
  | .arr xs => xs.getD i .undefined
  | _ => .undefined

/-- JS `a || b`. -/
def jsOr (a b : JsValue) : JsValue :=
  if truthy a then a else b

/-- The `req.body || {}` normalisation at the top of each handler. -/
def normBody (v : JsValue) : JsValue :=
  if truthy v then v else .obj []

/-- Process-wide configuration read from the environment at startup. -/
structure Config where
  METABASE_URL : Option String
  METABASE_API_KEY : Option String
  OPENAI_API_KEY : Option String
  ALLOWED_DATABASES : List String
  NL_SQL_MODEL : Option String

/-- Truthiness of an environment variable (`undefined` or `""` is falsy). -/
def envTruthy : Option String → Bool
  | none => false
  | some s => !s.isEmpty

/-- Parsing of `ALLOWED_DATABASES`:
`(process.env.ALLOWED_DATABASES || "").split(",").map(s => s.trim()).filter(Boolean)`. -/
def parseAllowedDatabases (env : Option String) : List String :=
  (((env.getD "").splitOn ",").map jsTrimStr).filter (fun s => !s.isEmpty)

/-- The deny condition of the allow-list gate, as written in both handlers:
`ALLOWED_DATABASES.length && !ALLOWED_DATABASES.includes(String(database_id))`. -/
def allowListDenies (allowed : List String) (database_id : JsValue) : Bool :=
  (allowed.length != 0) && !(allowed.contains (jsToString database_id))

/-- The Allow-list Filter verdict: permit is the negation of the deny condition. -/
def allowListPermits (allowed : List String) (database_id : JsValue) : Bool :=
  !allowListDenies allowed database_id

/-- A normalised upstream failure: the thrown error's `message` and, when the
upstream answered with a non-2xx status, `err.response.data` (else `undefined`). -/
structure JsError where
  message : String
  responseData : JsValue

/-- `err.response?.data || String(err.message || err)` as used in the
`create_question` and `get_question_results` catch blocks. -/
def errDetails (e : JsError) : JsValue :=
  if truthy e.responseData then e.responseData else .str e.message

/-- One outbound HTTP call issued by a handler. -/
inductive OutboundCall where
  | metabase (url : String) (method : String) (data : JsValue)
  | openai (url : String) (payload : JsValue)
deriving Repr

/-- The HTTP response a handler sends back. -/
structure HttpResponse where
  status : Nat
  body : JsValue
deriving Repr

/-- A handler outcome: the response and the outbound calls actually issued. -/
abbrev HandlerOutput := HttpResponse × List OutboundCall

/-- `METABASE_URL.replace(/\/$/, "")`: strip one trailing slash. -/
def stripTrailingSlash (s : String) : String :=
  match s.data.reverse with
  | '/' :: rest => ⟨rest.reverse⟩
  | _ => s

/-- Full analytics-platform URL for a path. -/
def mbUrl (cfg : Config) (path : String) : String :=
  stripTrailingSlash (cfg.METABASE_URL.getD "") ++ path

/-- Whether the analytics-platform credentials are both configured
(`!METABASE_URL || !METABASE_API_KEY` is the code's negative test). -/
def metabaseConfigured (cfg : Config) : Bool :=
  envTruthy cfg.METABASE_URL && envTruthy cfg.METABASE_API_KEY

/-- Message of the error thrown by `callMetabase` when unconfigured. -/
def metabaseNotConfiguredMsg : String :=
  "Metabase not configured (METABASE_URL / METABASE_API_KEY)."

/-- The `callMetabase` helper: throws before any network call when the
analytics credentials are absent; otherwise issues exactly one call whose
outcome is the given upstream result. -/
def callMetabase (cfg : Config) (path : String) (method : String)
    (data : JsValue) (upstream : Except JsError JsValue) :
    Except JsError JsValue × List OutboundCall :=
  if !metabaseConfigured cfg then
    (.error ⟨metabaseNotConfiguredMsg, .undefined⟩, [])
  else
    (upstream, [.metabase (mbUrl cfg path) method data])

/-- Truthiness of `v.length` as tested by `table_hints && table_hints.length`. -/
def jsLengthTruthy : JsValue → Bool
  | .arr xs => !xs.isEmpty
  | .str s => !s.isEmpty
  | _ => false

/-- The fixed instruction lines of the system prompt. -/
def systemPromptRules : List String :=
  ["You are a SQL assistant for Metabase, generating safe, read-only SQL for PostgreSQL.",
   "RULES:",
   "- Only use SELECT statements (no INSERT/UPDATE/DELETE/ALTER/DROP).",
   "- Prefer existing tables and columns from the hints.",
   "- Do not guess table names beyond the hints; if unsure, say you are unsure."]

/-- The system prompt: fixed rules plus optional schema and table hints,
empty entries filtered out, joined with newlines. -/
def buildSystemPrompt (schema_hint table_hints : JsValue) : String :=
  let parts : List String :=
    systemPromptRules ++
      ["",
       if truthy schema_hint then "SCHEMA HINT:\n" ++ jsToString schema_hint else "",
       if truthy table_hints && jsLengthTruthy table_hints then
         "TABLE HINTS: " ++
           (match table_hints with
            | .arr xs => jsJoin ", " xs
            | v => jsToString v)
       else ""]
  String.intercalate "\n" (parts.filter (fun s => !s.isEmpty))

/-- `process.env.NL_SQL_MODEL || "gpt-4.1-mini"`. -/
def nlSqlModel (cfg : Config) : String :=
  if envTruthy cfg.NL_SQL_MODEL then cfg.NL_SQL_MODEL.getD "" else "gpt-4.1-mini"

/-- The chat-completion request payload. -/
def openaiPayload (cfg : Config) (systemPrompt : String) (text : JsValue) : JsValue :=
  .obj [("model", .str (nlSqlModel cfg)),
        ("messages", .arr
          [.obj [("role", .str "system"), ("content", .str systemPrompt)],
           .obj [("role", .str "user"), ("content", text)]])]

/-- The chat-completion endpoint URL. -/
def openaiUrl : String := "https://api.openai.com/v1/chat/completions"

/-- `openaiResp.data.choices?.[0]?.message?.content?.trim()`:
`ok none` when the chain is nullish (so `sql` is `undefined`),
`ok (some s)` when the content is the string whose trim is `s`, and
`error` when `.trim()` is called on a non-string non-nullish value
(a TypeError caught by the handler's catch block). -/
def extractSql (data : JsValue) : Except String (Option String) :=
  match optChain (optChain (optIndex (getField data "choices") 0) "message") "content" with
  | .undefined => .ok none
  | .null => .ok none
  | .str s => .ok (some (jsTrimStr s))
  | _ => .error "openaiResp.data.choices?.[0]?.message?.content?.trim is not a function"

/-- The `POST /natural_language_to_sql` handler.  `upstream` is the outcome
of the chat-completion call, consulted only if the handler reaches it. -/
def natural_language_to_sql (cfg : Config) (reqBody : JsValue)
    (upstream : Except JsError JsValue) : HandlerOutput :=
  let body := normBody reqBody
  let text := getField body "text"
  let database_id := getField body "database_id"
  let schema_hint := getField body "schema_hint"
  let table_hints := getField body "table_hints"
  if !truthy text || !truthy database_id then
    (⟨400, .obj [("error", .str "text and database_id are required")]⟩, [])
  else if allowListDenies cfg.ALLOWED_DATABASES database_id then
    (⟨400, .obj [("error", .str "database_id not allowed")]⟩, [])
  else if !envTruthy cfg.OPENAI_API_KEY then
    (⟨500, .obj [("error", .str "OPENAI_API_KEY not set on server")]⟩, [])
  else
    let payload := openaiPayload cfg (buildSystemPrompt schema_hint table_hints) text
    let calls := [OutboundCall.openai openaiUrl payload]
    match upstream with
    | .error e =>
      (⟨500, .obj [("error", .str "natural_language_to_sql failed"),
                   ("details", .str e.message)]⟩, calls)
    | .ok data =>
      match extractSql data with
      | .error m =>
        (⟨500, .obj [("error", .str "natural_language_to_sql failed"),
                     ("details", .str m)]⟩, calls)
      | .ok none =>
        (⟨500, .obj [("error", .str "No SQL generated")]⟩, calls)
      | .ok (some sql) =>
        if sql.isEmpty then
          (⟨500, .obj [("error", .str "No SQL generated")]⟩, calls)
        else
          (⟨200, .obj [("sql", .str sql), ("database_id", database_id)]⟩, calls)

/-- The card payload built by `create_question`. -/
def createQuestionPayload (name sql database_id : JsValue) : JsValue :=
  .obj [("name", name),
        ("display", .str "table"),
        ("dataset_query", .obj
          [("type", .str "native"),
           ("native", .obj [("query", sql)]),
           ("database", database_id)])]

/-- The `POST /create_question` handler. -/
def create_question (cfg : Config) (reqBody : JsValue)
    (upstream : Except JsError JsValue) : HandlerOutput :=
  let body := normBody reqBody
  let name := getField body "name"
  let sql := getField body "sql"
  let database_id := getField body "database_id"
  if !truthy name || !truthy sql || !truthy database_id then
    (⟨400, .obj [("error", .str "name, sql, database_id are required")]⟩, [])
  else if allowListDenies cfg.ALLOWED_DATABASES database_id then
    (⟨400, .obj [("error", .str "database_id not allowed")]⟩, [])
  else
    match callMetabase cfg "/api/card" "POST"
        (createQuestionPayload name sql database_id) upstream with
    | (.error e, calls) =>
      (⟨500, .obj [("error", .str "create_question failed"),
                   ("details", errDetails e)]⟩, calls)
    | (.ok card, calls) =>
      (⟨200, .obj
        [("question_id", getField card "id"),
         ("name", getField card "name"),
         ("url", .str (if truthy (getField card "public_uuid") then
             "/public/question/" ++ jsToString (getField card "public_uuid")
           else
             "/question/" ++ jsToString (getField card "id")))]⟩, calls)

/-- The `POST /get_question_results` handler. -/
def get_question_results (cfg : Config) (reqBody : JsValue)
    (upstream : Except JsError JsValue) : HandlerOutput :=
  let body := normBody reqBody
  let question_id := getField body "question_id"
  if !truthy question_id then
    (⟨400, .obj [("error", .str "question_id is required")]⟩, [])
  else
    match callMetabase cfg ("/api/card/" ++ jsToString question_id ++ "/query")
        "POST" (.obj [("parameters", .arr [])]) upstream with
    | (.error e, calls) =>
      (⟨500, .obj [("error", .str "get_question_results failed"),
                   ("details", errDetails e)]⟩, calls)
    | (.ok data, calls) =>
      (⟨200, .obj
        [("cols", jsOr (optChain (optChain data "data") "cols") (.arr [])),
         ("rows", jsOr (optChain (optChain data "data") "rows") (.arr [])),
         ("raw", data)]⟩, calls)

/-- The `GET /health` handler: unconditional success, no outbound call. -/
def healthHandler (_cfg : Config) : HandlerOutput :=
  (⟨200, .obj [("ok", .bool true), ("service", .str "metabase-mcp-server")]⟩, [])

/-- A fully configured sample environment, used to instantiate theorems. -/
def sampleConfig : Config :=
  ⟨some "https://mb.example.com", some "mb-key", some "sk-test", ["2"], none⟩

/-- A sample environment with no analytics-platform URL configured. -/
def noMetabaseConfig : Config :=
  ⟨none, some "mb-key", some "sk-test", ["2"], none⟩

/-- The card payload `create_question` builds for a given request body. -/
def requestedCardPayload (reqBody : JsValue) : JsValue :=
  createQuestionPayload (getField (normBody reqBody) "name")
    (getField (normBody reqBody) "sql")
    (getField (normBody reqBody) "database_id")

/-- A sample valid `/natural_language_to_sql` request body. -/
def nlBodyW : JsValue :=
  .obj [("text", .str "How many orders are there?"), ("database_id", .num 2)]

/-- A sample valid `/create_question` request body. -/
def qBodyW : JsValue :=
  .obj [("name", .str "Q1"), ("sql", .str "SELECT 1"), ("database_id", .num 2)]

/-- A sample valid `/get_question_results` request body. -/
def rBodyW : JsValue :=
  .obj [("question_id", .num 123)]

/-- A sample chat-completion response carrying a padded SQL string. -/
def openaiDataW : JsValue :=
  .obj [("choices", .arr
    [.obj [("message", .obj [("content", .str "  SELECT COUNT(*) FROM orders  ")])]])]

/-- A sample created card that exposes a public identifier. -/
def cardW : JsValue :=
  .obj [("id", .num 42), ("name", .str "Q1"), ("public_uuid", .str "abc-123")]

/-- A sample created card with no public identifier. -/
def cardNoPubW : JsValue :=
  .obj [("id", .num 42), ("name", .str "Q1")]

/-- A sample query-execution payload with columns and rows. -/
def resultsDataW : JsValue :=
  .obj [("data", .obj [("cols", .arr [.str "c1"]), ("rows", .arr [.arr [.num 1]])])]

end MetabaseMcp

namespace MetabaseMcp

/-- Claim C1: the Allow-list Filter permits every candidate when the
configured list is empty, and when the list is non-empty it permits the
candidate iff the string form of the candidate is a member of the list
under exact string equality. -/
theorem allowList_filter_spec (allowed : List String) (candidate : JsValue) :
    (allowed = [] → allowListPermits allowed candidate = true) ∧
    (allowed ≠ [] →
      (allowListPermits allowed candidate = true ↔ jsToString candidate ∈ allowed)) := by
  constructor
  · intro h
    subst h
    rfl
  · intro h
    cases allowed with
    | nil => exact absurd rfl h
    | cons a as =>
      simp [allowListPermits, allowListDenies, List.contains, List.elem_iff]

/-- Witness for C1: on concrete inputs, the empty list permits `7`, and the
list `["2", "5"]` permits `2` because `"2"` is a member. -/
theorem allowList_filter_spec_witness :
    allowListPermits [] (.num 7) = true ∧
    (allowListPermits ["2", "5"] (.num 2) = true ↔ "2" ∈ ["2", "5"]) :=
  ⟨(allowList_filter_spec [] (.num 7)).1 rfl,
   (allowList_filter_spec ["2", "5"] (.num 2)).2 (by decide)⟩

/-- Claim C10: `GET /health` returns HTTP 200 with `ok = true` and the
service name, for every configuration, and issues no outbound call. -/
theorem health_always_ok (cfg : Config) :
    (healthHandler cfg).1.status = 200 ∧
    getField (healthHandler cfg).1.body "ok" = .bool true ∧
    getField (healthHandler cfg).1.body "service" = .str "metabase-mcp-server" ∧
    (healthHandler cfg).2 = [] :=
  ⟨rfl, rfl, rfl, rfl⟩

/-- Claim C7: the `get_question_results` handler never consults the
allow-list: replacing the configured allow-list by any other list leaves its
behaviour on every request and upstream outcome unchanged. -/
theorem get_question_results_ignores_allowlist (cfg : Config)
    (allowed : List String) (reqBody : JsValue) (u : Except JsError JsValue) :
    get_question_results { cfg with ALLOWED_DATABASES := allowed } reqBody u =
      get_question_results cfg reqBody u :=
  rfl

/-- Claim C2: validation order of `POST /natural_language_to_sql`:
missing `text` or `database_id` gives HTTP 400 "text and database_id are
required"; otherwise a database denied by the Allow-list Filter gives HTTP
400 "database_id not allowed"; otherwise a missing language-model credential
gives HTTP 500 — and in each failure case no outbound call is issued. -/
theorem nl2sql_validation_order (cfg : Config) (reqBody : JsValue)
    (u : Except JsError JsValue) :
    ((getField (normBody reqBody) "text" = .undefined ∨
      getField (normBody reqBody) "database_id" = .undefined) →
      natural_language_to_sql cfg reqBody u =
        (⟨400, .obj [("error", .str "text and database_id are required")]⟩, [])) ∧
    (truthy (getField (normBody reqBody) "text") = true →
     truthy (getField (normBody reqBody) "database_id") = true →
     allowListPermits cfg.ALLOWED_DATABASES
         (getField (normBody reqBody) "database_id") = false →
      natural_language_to_sql cfg reqBody u =
        (⟨400, .obj [("error", .str "database_id not allowed")]⟩, [])) ∧
    (truthy (getField (normBody reqBody) "text") = true →
     truthy (getField (normBody reqBody) "database_id") = true →
     allowListPermits cfg.ALLOWED_DATABASES
         (getField (normBody reqBody) "database_id") = true →
     envTruthy cfg.OPENAI_API_KEY = false →
      natural_language_to_sql cfg reqBody u =
        (⟨500, .obj [("error", .str "OPENAI_API_KEY not set on server")]⟩, [])) := by
  refine ⟨?_, ?_, ?_⟩
  · rintro (h | h) <;> simp [natural_language_to_sql, h, truthy]
  · intro h1 h2 h3
    rw [allowListPermits, Bool.not_eq_false'] at h3
    simp [natural_language_to_sql, h1, h2, h3]
  · intro h1 h2 h3 h4
    rw [allowListPermits, Bool.not_eq_true'] at h3
    simp [natural_language_to_sql, h1, h2, h3, h4]

/-- Witness for C2: the three failure branches observed on concrete
requests against the sample configuration (allow-list `["2"]`). -/
theorem nl2sql_validation_order_witness :
    natural_language_to_sql sampleConfig (.obj [("text", .str "hi")]) (.ok .null) =
      (⟨400, .obj [("error", .str "text and database_id are required")]⟩, []) ∧
    natural_language_to_sql sampleConfig
        (.obj [("text", .str "hi"), ("database_id", .num 3)]) (.ok .null) =
      (⟨400, .obj [("error", .str "database_id not allowed")]⟩, []) ∧
    natural_language_to_sql ⟨none, none, none, ["2"], none⟩
        (.obj [("text", .str "hi"), ("database_id", .num 2)]) (.ok .null) =
      (⟨500, .obj [("error", .str "OPENAI_API_KEY not set on server")]⟩, []) :=
  ⟨(nl2sql_validation_order sampleConfig (.obj [("text", .str "hi")]) (.ok .null)).1
      (Or.inr rfl),
   (nl2sql_validation_order sampleConfig
      (.obj [("text", .str "hi"), ("database_id", .num 3)]) (.ok .null)).2.1
      rfl rfl rfl,
   (nl2sql_validation_order ⟨none, none, none, ["2"], none⟩
      (.obj [("text", .str "hi"), ("database_id", .num 2)]) (.ok .null)).2.2
      rfl rfl rfl rfl⟩

/-- Claim C9: for each endpoint, a required field whose value is falsy
(`0`, `""`, `false`, `null`) is treated as missing: HTTP 400 and no
outbound call, even when the field is present in the body. -/
theorem falsy_required_fields_rejected (cfg : Config) (reqBody : JsValue)
    (u : Except JsError JsValue) :
    ((truthy (getField (normBody reqBody) "text") = false ∨
      truthy (getField (normBody reqBody) "database_id") = false) →
      natural_language_to_sql cfg reqBody u =
        (⟨400, .obj [("error", .str "text and database_id are required")]⟩, [])) ∧
    ((truthy (getField (normBody reqBody) "name") = false ∨
      truthy (getField (normBody reqBody) "sql") = false ∨
      truthy (getField (normBody reqBody) "database_id") = false) →
      create_question cfg reqBody u =
        (⟨400, .obj [("error", .str "name, sql, database_id are required")]⟩, [])) ∧
    (truthy (getField (normBody reqBody) "question_id") = false →
      get_question_results cfg reqBody u =
        (⟨400, .obj [("error", .str "question_id is required")]⟩, [])) := by
  refine ⟨?_, ?_, ?_⟩
  · rintro (h | h) <;> simp [natural_language_to_sql, h]
  · rintro (h | h | h) <;> simp [create_question, h]
  · intro h
    simp [get_question_results, h]

/-- Witness for C9: `database_id 0` and `question_id 0`, although present,
are rejected as missing with HTTP 400 and no outbound call. -/
theorem falsy_required_fields_rejected_witness :
    natural_language_to_sql sampleConfig
        (.obj [("text", .str "list orders"), ("database_id", .num 0)]) (.ok .null) =
      (⟨400, .obj [("error", .str "text and database_id are required")]⟩, []) ∧
    create_question sampleConfig
        (.obj [("name", .str "Q1"), ("sql", .str "SELECT 1"), ("database_id", .num 0)])
        (.ok .null) =
      (⟨400, .obj [("error", .str "name, sql, database_id are required")]⟩, []) ∧
    get_question_results sampleConfig (.obj [("question_id", .num 0)]) (.ok .null) =
      (⟨400, .obj [("error", .str "question_id is required")]⟩, []) :=
  ⟨(falsy_required_fields_rejected sampleConfig
      (.obj [("text", .str "list orders"), ("database_id", .num 0)]) (.ok .null)).1
      (Or.inr rfl),
   (falsy_required_fields_rejected sampleConfig
      (.obj [("name", .str "Q1"), ("sql", .str "SELECT 1"), ("database_id", .num 0)])
      (.ok .null)).2.1 (Or.inr (Or.inr rfl)),
   (falsy_required_fields_rejected sampleConfig
      (.obj [("question_id", .num 0)]) (.ok .null)).2.2 rfl⟩

/-- Claim C3: a `/create_question` request that passes validation issues
one creation call whose payload has display "table" and a native dataset
query embedding the caller's sql unmodified and targeting the caller's
database_id. -/
theorem create_question_payload_spec (cfg : Config) (reqBody : JsValue)
    (u : Except JsError JsValue)
    (hn : truthy (getField (normBody reqBody) "name") = true)
    (hs : truthy (getField (normBody reqBody) "sql") = true)
    (hd : truthy (getField (normBody reqBody) "database_id") = true)
    (hp : allowListPermits cfg.ALLOWED_DATABASES
        (getField (normBody reqBody) "database_id") = true)
    (hm : metabaseConfigured cfg = true) :
    (create_question cfg reqBody u).2 =
      [.metabase (mbUrl cfg "/api/card") "POST" (requestedCardPayload reqBody)] ∧
    getField (requestedCardPayload reqBody) "display" = .str "table" ∧
    getField (getField (requestedCardPayload reqBody) "dataset_query") "type" =
      .str "native" ∧
    getField (getField (getField (requestedCardPayload reqBody) "dataset_query")
        "native") "query" = getField (normBody reqBody) "sql" ∧
    getField (getField (requestedCardPayload reqBody) "dataset_query") "database" =
      getField (normBody reqBody) "database_id" := by
  have hp' : allowListDenies cfg.ALLOWED_DATABASES
      (getField (normBody reqBody) "database_id") = false := by
    rwa [allowListPermits, Bool.not_eq_true'] at hp
  refine ⟨?_, rfl, rfl, rfl, rfl⟩
  cases u <;>
    simp [create_question, hn, hs, hd, hp', callMetabase, hm, requestedCardPayload]

/-- Witness for C3: the concrete creation call and payload shape for
`{name: "Q1", sql: "SELECT 1", database_id: 2}` with allow-list `["2"]`. -/
theorem create_question_payload_spec_witness :
    (create_question sampleConfig qBodyW (.ok .null)).2 =
      [.metabase (mbUrl sampleConfig "/api/card") "POST" (requestedCardPayload qBodyW)] ∧
    getField (requestedCardPayload qBodyW) "display" = .str "table" ∧
    getField (getField (requestedCardPayload qBodyW) "dataset_query") "type" =
      .str "native" ∧
    getField (getField (getField (requestedCardPayload qBodyW) "dataset_query")
        "native") "query" = .str "SELECT 1" ∧
    getField (getField (requestedCardPayload qBodyW) "dataset_query") "database" =
      .num 2 :=
  create_question_payload_spec sampleConfig qBodyW (.ok .null) rfl rfl rfl rfl rfl

/-- Claim C4: `/get_question_results` with a present `question_id` issues
exactly one query-execution call against that question with an empty
parameter set, and its success response passes `data.cols` and `data.rows`
through (defaulting each to the empty sequence when absent, not an error)
with `raw` being the unmodified upstream payload. -/
theorem get_question_results_spec (cfg : Config) (reqBody : JsValue)
    (data : JsValue)
    (hq : truthy (getField (normBody reqBody) "question_id") = true)
    (hm : metabaseConfigured cfg = true) :
    (get_question_results cfg reqBody (.ok data)).2 =
      [.metabase
        (mbUrl cfg ("/api/card/" ++
          jsToString (getField (normBody reqBody) "question_id") ++ "/query"))
        "POST" (.obj [("parameters", .arr [])])] ∧
    (get_question_results cfg reqBody (.ok data)).1.status = 200 ∧
    getField (get_question_results cfg reqBody (.ok data)).1.body "raw" = data ∧
    (truthy (optChain (optChain data "data") "cols") = true →
      getField (get_question_results cfg reqBody (.ok data)).1.body "cols" =
        optChain (optChain data "data") "cols") ∧
    (truthy (optChain (optChain data "data") "cols") = false →
      getField (get_question_results cfg reqBody (.ok data)).1.body "cols" =
        .arr []) ∧
    (truthy (optChain (optChain data "data") "rows") = true →
      getField (get_question_results cfg reqBody (.ok data)).1.body "rows" =
        optChain (optChain data "data") "rows") ∧
    (truthy (optChain (optChain data "data") "rows") = false →
      getField (get_question_results cfg reqBody (.ok data)).1.body "rows" =
        .arr []) := by
  have key : get_question_results cfg reqBody (.ok data) =
      (⟨200, .obj
        [("cols", jsOr (optChain (optChain data "data") "cols") (.arr [])),
         ("rows", jsOr (optChain (optChain data "data") "rows") (.arr [])),
         ("raw", data)]⟩,
       [.metabase
          (mbUrl cfg ("/api/card/" ++
            jsToString (getField (normBody reqBody) "question_id") ++ "/query"))
          "POST" (.obj [("parameters", .arr [])])]) := by
    simp [get_question_results, hq, callMetabase, hm]
  refine ⟨?_, ?_, ?_, ?_, ?_, ?_, ?_⟩
  · rw [key]
  · rw [key]
  · rw [key]
    rfl
  · intro h
    rw [key]
    show jsOr (optChain (optChain data "data") "cols") (.arr []) = _
    simp [jsOr, h]
  · intro h
    rw [key]
    show jsOr (optChain (optChain data "data") "cols") (.arr []) = _
    simp [jsOr, h]
  · intro h
    rw [key]
    show jsOr (optChain (optChain data "data") "rows") (.arr []) = _
    simp [jsOr, h]
  · intro h
    rw [key]
    show jsOr (optChain (optChain data "data") "rows") (.arr []) = _
    simp [jsOr, h]

/-- Witness for C4: for `question_id 123`, the concrete call and response,
both when the upstream payload carries `data.cols`/`data.rows` and when it
is an empty object (cols and rows default to empty, not an error). -/
theorem get_question_results_spec_witness :
    (get_question_results sampleConfig rBodyW (.ok resultsDataW)).2 =
      [.metabase "https://mb.example.com/api/card/123/query" "POST"
        (.obj [("parameters", .arr [])])] ∧
    (get_question_results sampleConfig rBodyW (.ok resultsDataW)).1.status = 200 ∧
    getField (get_question_results sampleConfig rBodyW (.ok resultsDataW)).1.body
      "raw" = resultsDataW ∧
    getField (get_question_results sampleConfig rBodyW (.ok resultsDataW)).1.body
      "cols" = .arr [.str "c1"] ∧
    getField (get_question_results sampleConfig rBodyW (.ok resultsDataW)).1.body
      "rows" = .arr [.arr [.num 1]] ∧
    (get_question_results sampleConfig rBodyW (.ok (.obj []))).1.status = 200 ∧
    getField (get_question_results sampleConfig rBodyW (.ok (.obj []))).1.body
      "cols" = .arr [] ∧
    getField (get_question_results sampleConfig rBodyW (.ok (.obj []))).1.body
      "rows" = .arr [] :=
  ⟨(get_question_results_spec sampleConfig rBodyW resultsDataW rfl rfl).1,
   (get_question_results_spec sampleConfig rBodyW resultsDataW rfl rfl).2.1,
   (get_question_results_spec sampleConfig rBodyW resultsDataW rfl rfl).2.2.1,
   (get_question_results_spec sampleConfig rBodyW resultsDataW rfl rfl).2.2.2.1 rfl,
   (get_question_results_spec sampleConfig rBodyW resultsDataW rfl rfl).2.2.2.2.2.1 rfl,
   (get_question_results_spec sampleConfig rBodyW (.obj []) rfl rfl).2.1,
   (get_question_results_spec sampleConfig rBodyW (.obj []) rfl rfl).2.2.2.2.1 rfl,
   (get_question_results_spec sampleConfig rBodyW (.obj []) rfl rfl).2.2.2.2.2.2 rfl⟩

/-- Claim C5: on a successful chat-completion call, the returned sql is the
first completion's message content trimmed of surrounding whitespace, with
the caller's database_id echoed; when the upstream yields no usable text
(no first completion, no content, or content empty after trimming), the
handler answers HTTP 500 "No SQL generated" instead of a result. -/
theorem nl2sql_extraction_spec (cfg : Config) (reqBody data : JsValue)
    (s : String)
    (ht : truthy (getField (normBody reqBody) "text") = true)
    (hd : truthy (getField (normBody reqBody) "database_id") = true)
    (hp : allowListPermits cfg.ALLOWED_DATABASES
        (getField (normBody reqBody) "database_id") = true)
    (hk : envTruthy cfg.OPENAI_API_KEY = true) :
    (optChain (optChain (optIndex (getField data "choices") 0) "message")
        "content" = .str s →
     (jsTrimStr s).isEmpty = false →
      (natural_language_to_sql cfg reqBody (.ok data)).1 =
        ⟨200, .obj [("sql", .str (jsTrimStr s)),
                    ("database_id", getField (normBody reqBody) "database_id")]⟩) ∧
    (optChain (optChain (optIndex (getField data "choices") 0) "message")
        "content" = .str s →
     (jsTrimStr s).isEmpty = true →
      (natural_language_to_sql cfg reqBody (.ok data)).1 =
        ⟨500, .obj [("error", .str "No SQL generated")]⟩) ∧
    ((optChain (optChain (optIndex (getField data "choices") 0) "message")
        "content" = .undefined ∨
      optChain (optChain (optIndex (getField data "choices") 0) "message")
        "content" = .null) →
      (natural_language_to_sql cfg reqBody (.ok data)).1 =
        ⟨500, .obj [("error", .str "No SQL generated")]⟩) := by
  have hp' : allowListDenies cfg.ALLOWED_DATABASES
      (getField (normBody reqBody) "database_id") = false := by
    rwa [allowListPermits, Bool.not_eq_true'] at hp
  refine ⟨?_, ?_, ?_⟩
  · intro hc hne
    simp [natural_language_to_sql, ht, hd, hp', hk, extractSql, hc, hne]
  · intro hc hne
    simp [natural_language_to_sql, ht, hd, hp', hk, extractSql, hc, hne]
  · rintro (hc | hc) <;>
      simp [natural_language_to_sql, ht, hd, hp', hk, extractSql, hc]

/-- Witness for C5: a padded completion yields the trimmed sql with the
request's database_id echoed, and an upstream payload with no choices
yields HTTP 500 "No SQL generated". -/
theorem nl2sql_extraction_spec_witness :
    (natural_language_to_sql sampleConfig nlBodyW (.ok openaiDataW)).1 =
      ⟨200, .obj [("sql", .str "SELECT COUNT(*) FROM orders"),
                  ("database_id", .num 2)]⟩ ∧
    (natural_language_to_sql sampleConfig nlBodyW (.ok (.obj []))).1 =
      ⟨500, .obj [("error", .str "No SQL generated")]⟩ :=
  ⟨(nl2sql_extraction_spec sampleConfig nlBodyW openaiDataW
      "  SELECT COUNT(*) FROM orders  " rfl rfl rfl rfl).1 rfl rfl,
   (nl2sql_extraction_spec sampleConfig nlBodyW (.obj []) "" rfl rfl rfl rfl).2.2
      (Or.inl rfl)⟩

/-- Claim C6: a successful `/create_question` echoes the created card's id
and name, and its url is the public share path keyed by the card's public
identifier when one is exposed, otherwise the internal reference path keyed
by the card's id. -/
theorem create_question_response_spec (cfg : Config) (reqBody card : JsValue)
    (hn : truthy (getField (normBody reqBody) "name") = true)
    (hs : truthy (getField (normBody reqBody) "sql") = true)
    (hd : truthy (getField (normBody reqBody) "database_id") = true)
    (hp : allowListPermits cfg.ALLOWED_DATABASES
        (getField (normBody reqBody) "database_id") = true)
    (hm : metabaseConfigured cfg = true) :
    (create_question cfg reqBody (.ok card)).1.status = 200 ∧
    getField (create_question cfg reqBody (.ok card)).1.body "question_id" =
      getField card "id" ∧
    getField (create_question cfg reqBody (.ok card)).1.body "name" =
      getField card "name" ∧
    (truthy (getField card "public_uuid") = true →
      getField (create_question cfg reqBody (.ok card)).1.body "url" =
        .str ("/public/question/" ++ jsToString (getField card "public_uuid"))) ∧
    (truthy (getField card "public_uuid") = false →
      getField (create_question cfg reqBody (.ok card)).1.body "url" =
        .str ("/question/" ++ jsToString (getField card "id"))) := by
  have hp' : allowListDenies cfg.ALLOWED_DATABASES
      (getField (normBody reqBody) "database_id") = false := by
    rwa [allowListPermits, Bool.not_eq_true'] at hp
  have key : create_question cfg reqBody (.ok card) =
      (⟨200, .obj
        [("question_id", getField card "id"),
         ("name", getField card "name"),
         ("url", .str (if truthy (getField card "public_uuid") then
             "/public/question/" ++ jsToString (getField card "public_uuid")
           else
             "/question/" ++ jsToString (getField card "id")))]⟩,
       [.metabase (mbUrl cfg "/api/card") "POST" (requestedCardPayload reqBody)]) := by
    simp [create_question, hn, hs, hd, hp', callMetabase, hm, requestedCardPayload]
  refine ⟨?_, ?_, ?_, ?_, ?_⟩
  · rw [key]
  · rw [key]
    rfl
  · rw [key]
    rfl
  · intro h
    rw [key]
    show JsValue.str (if truthy (getField card "public_uuid") then
        "/public/question/" ++ jsToString (getField card "public_uuid")
      else "/question/" ++ jsToString (getField card "id")) = _
    rw [h]
    simp
  · intro h
    rw [key]
    show JsValue.str (if truthy (getField card "public_uuid") then
        "/public/question/" ++ jsToString (getField card "public_uuid")
      else "/question/" ++ jsToString (getField card "id")) = _
    rw [h]
    simp

/-- Witness for C6: with a public identifier the url is the public share
path; without one it is the internal reference path keyed by the id. -/
theorem create_question_response_spec_witness :
    (create_question sampleConfig qBodyW (.ok cardW)).1.status = 200 ∧
    getField (create_question sampleConfig qBodyW (.ok cardW)).1.body
      "question_id" = .num 42 ∧
    getField (create_question sampleConfig qBodyW (.ok cardW)).1.body
      "name" = .str "Q1" ∧
    getField (create_question sampleConfig qBodyW (.ok cardW)).1.body
      "url" = .str "/public/question/abc-123" ∧
    getField (create_question sampleConfig qBodyW (.ok cardNoPubW)).1.body
      "url" = .str "/question/42" :=
  ⟨(create_question_response_spec sampleConfig qBodyW cardW
      rfl rfl rfl rfl rfl).1,
   (create_question_response_spec sampleConfig qBodyW cardW
      rfl rfl rfl rfl rfl).2.1,
   (create_question_response_spec sampleConfig qBodyW cardW
      rfl rfl rfl rfl rfl).2.2.1,
   (create_question_response_spec sampleConfig qBodyW cardW
      rfl rfl rfl rfl rfl).2.2.2.1 rfl,
   (create_question_response_spec sampleConfig qBodyW cardNoPubW
      rfl rfl rfl rfl rfl).2.2.2.2 rfl⟩

/-- Claim C8: with analytics credentials absent, `callMetabase` fails with
the not-configured error and issues no network call; the create-question
and fetch-results endpoints surface this as HTTP 500 with no outbound call;
and the translate endpoint's behaviour is independent of the analytics
configuration. -/
theorem metabase_not_configured_spec (cfg : Config) (reqBody : JsValue)
    (u : Except JsError JsValue) (path method : String) (data : JsValue)
    (url key : Option String) :
    (metabaseConfigured cfg = false →
      callMetabase cfg path method data u =
        (.error ⟨metabaseNotConfiguredMsg, .undefined⟩, [])) ∧
    (metabaseConfigured cfg = false →
     truthy (getField (normBody reqBody) "name") = true →
     truthy (getField (normBody reqBody) "sql") = true →
     truthy (getField (normBody reqBody) "database_id") = true →
     allowListPermits cfg.ALLOWED_DATABASES
         (getField (normBody reqBody) "database_id") = true →
      create_question cfg reqBody u =
        (⟨500, .obj [("error", .str "create_question failed"),
                     ("details", .str metabaseNotConfiguredMsg)]⟩, [])) ∧
    (metabaseConfigured cfg = false →
     truthy (getField (normBody reqBody) "question_id") = true →
      get_question_results cfg reqBody u =
        (⟨500, .obj [("error", .str "get_question_results failed"),
                     ("details", .str metabaseNotConfiguredMsg)]⟩, [])) ∧
    natural_language_to_sql
        { cfg with METABASE_URL := url, METABASE_API_KEY := key } reqBody u =
      natural_language_to_sql cfg reqBody u := by
  refine ⟨?_, ?_, ?_, rfl⟩
  · intro h
    simp [callMetabase, h]
  · intro h hn hs hd hp
    have hp' : allowListDenies cfg.ALLOWED_DATABASES
        (getField (normBody reqBody) "database_id") = false := by
      rwa [allowListPermits, Bool.not_eq_true'] at hp
    have he : errDetails ⟨metabaseNotConfiguredMsg, .undefined⟩ =
        .str metabaseNotConfiguredMsg := rfl
    simp [create_question, hn, hs, hd, hp', callMetabase, h, he]
  · intro h hq
    have he : errDetails ⟨metabaseNotConfiguredMsg, .undefined⟩ =
        .str metabaseNotConfiguredMsg := rfl
    simp [get_question_results, hq, callMetabase, h, he]

/-- Witness for C8: with `METABASE_URL` unset, the helper and both
card-backed endpoints fail closed with no outbound call, and the translate
endpoint's answer is unchanged by the analytics configuration. -/
theorem metabase_not_configured_spec_witness :
    callMetabase noMetabaseConfig "/api/card" "POST" (.obj []) (.ok .null) =
      (.error ⟨metabaseNotConfiguredMsg, .undefined⟩, []) ∧
    create_question noMetabaseConfig qBodyW (.ok .null) =
      (⟨500, .obj [("error", .str "create_question failed"),
                   ("details", .str metabaseNotConfiguredMsg)]⟩, []) ∧
    get_question_results noMetabaseConfig rBodyW (.ok .null) =
      (⟨500, .obj [("error", .str "get_question_results failed"),
                   ("details", .str metabaseNotConfiguredMsg)]⟩, []) ∧
    natural_language_to_sql
        { sampleConfig with METABASE_URL := none, METABASE_API_KEY := none }
        nlBodyW (.ok openaiDataW) =
      natural_language_to_sql sampleConfig nlBodyW (.ok openaiDataW) :=
  ⟨(metabase_not_configured_spec noMetabaseConfig qBodyW (.ok .null)
      "/api/card" "POST" (.obj []) none none).1 rfl,
   (metabase_not_configured_spec noMetabaseConfig qBodyW (.ok .null)
      "/api/card" "POST" (.obj []) none none).2.1 rfl rfl rfl rfl rfl,
   (metabase_not_configured_spec noMetabaseConfig rBodyW (.ok .null)
      "/api/card" "POST" (.obj []) none none).2.2.1 rfl rfl,
   (metabase_not_configured_spec sampleConfig nlBodyW (.ok openaiDataW)
      "/api/card" "POST" (.obj []) none none).2.2.2⟩

end MetabaseMcp
